import Mathlib

/-!
Shallow embedding of the django_fsm transition engine, translated from
src/fsm_transition.py (FSMTag, the transition decorator) and
src/fsm_field.py (ONE_OF, FSMField.change_state).

Conventions of the embedding:
* States and source specifiers are Lean `String`s; the wildcards are the
  literal strings that the Python code compares against.
* Python dicts keyed by source string are association lists kept in
  insertion order; lookup and containment mirror dict.get and `in`.
* A raised Python exception is an `Except.error` carrying a `PyErr`.
* The acting object (the model instance that owns the decorated method) is
  an opaque type parameter `M`; guard conditions are functions `M → Bool`.
* The state holder is externalised: `change_state` receives the stored
  state read by `FSMField.get_state` as an input and reports every
  `FSMField.set_state` call it makes in its result, together with every
  `transition.send` signal, so that frame conditions are visible.
-/

set_option autoImplicit false

/-- Kinds of Python exceptions raised by the embedded code. `userExc` stands
for an arbitrary exception raised inside a wrapped behavior (the decorated
method body). -/
inductive PyErr where
  | transitionNotAllowed
  | valueError
  | assertionError
  | attributeError
  | userExc (code : Nat)
deriving DecidableEq

/-- Model of one Python positional argument reaching `ONE_OF.__init__`, or of
a value returned by a wrapped behavior: a string, a list of strings, a tuple
of strings, or a set of strings. The `set` constructor stands for any
argument whose type is neither `str` nor `list` nor `tuple`. Constructor
equality mirrors Python `==` on such values (a string never equals a list). -/
inductive Arg where
  | str (s : String)
  | list (l : List String)
  | tuple (l : List String)
  | set (l : List String)
deriving DecidableEq

/-- Embeds class `ONE_OF` (src/fsm_field.py lines 16-34). `allowed_states` is
`none` exactly when `__init__` finished without ever assigning the
`allowed_states` attribute (the fall-through case where the first argument is
neither a `str` nor a `list` nor a `tuple`): a later attribute read then
raises `AttributeError`. -/
structure ONE_OF where
  allowed_states : Option (List Arg)
deriving DecidableEq

/-- Embeds `ONE_OF.__init__(*allowed_states)` (src/fsm_field.py lines 20-28):
zero arguments raise `ValueError`; a first argument of exact type `str` keeps
the whole argument tuple; a first argument of exact type `list` or `tuple`
keeps `tuple(allowed_states[0])`; any other first argument leaves the
attribute unassigned. -/
def ONE_OF.init (args : List Arg) : Except PyErr ONE_OF :=
  match args with
  | [] => .error .valueError
  | a :: _ =>
    match a with
    | .str _ => .ok ⟨some args⟩
    | .list l => .ok ⟨some (l.map .str)⟩
    | .tuple l => .ok ⟨some (l.map .str)⟩
    | .set _ => .ok ⟨none⟩

/-- Embeds `ONE_OF.get_state(result)` (src/fsm_field.py lines 30-34): raise
`TransitionNotAllowed` when `result` is not a member of `allowed_states`,
otherwise return `result`. Reading `self.allowed_states` when the attribute
was never assigned raises `AttributeError`. -/
def ONE_OF.get_state (o : ONE_OF) (result : String) : Except PyErr String :=
  match o.allowed_states with
  | none => .error .attributeError
  | some l => if Arg.str result ∈ l then .ok result else .error .transitionNotAllowed

/-- A destination recorded in a transition entry: a literal state string or a
`ONE_OF` selector. `Option Dest` with `none` models Python `None` (the
validate-only, no-state-change destination). -/
inductive Dest where
  | state (s : String)
  | oneOf (o : ONE_OF)
deriving DecidableEq

/-- Embeds the per-source dict stored by `FSMTag.add_transition`
(src/fsm_transition.py lines 48-54). The `custom` entry is never read by the
code and is omitted. `conditions` is `none` when Python `None` was passed
(`conditions_met` tests `is None`), otherwise the list of guard predicates. -/
structure Transition (M : Type) where
  source : String
  destination : Option Dest
  on_error : Option String
  conditions : Option (List (M → Bool))

/-- Embeds class `FSMTag` (src/fsm_transition.py lines 10-18): the name of
the state field and the transitions dict, an insertion-ordered mapping from
source specifier to transition entry. -/
structure FSMTag (M : Type) where
  field : String
  transitions : List (String × Transition M)

/-- Python `self.transitions.get(k, None)` on the transitions dict. -/
def dictGet {M : Type} (d : List (String × Transition M)) (k : String) :
    Option (Transition M) :=
  match d with
  | [] => none
  | (k', v) :: rest => if k' = k then some v else dictGet rest k

/-- Python `k in self.transitions` on the transitions dict. -/
def dictContains {M : Type} (d : List (String × Transition M)) (k : String) : Bool :=
  match d with
  | [] => false
  | (k', _) :: rest => k' = k || dictContains rest k

/-- Embeds `FSMTag.get_transition(source)` (src/fsm_transition.py lines
20-31): try the exact source key, then the `*` key, then the `+` key,
returning `None` when all are absent. -/
def FSMTag.get_transition {M : Type} (t : FSMTag M) (source : String) :
    Option (Transition M) :=
  match dictGet t.transitions source with
  | some tr => some tr
  | none =>
    match dictGet t.transitions "*" with
    | some tr => some tr
    | none => dictGet t.transitions "+"

/-- Embeds `FSMTag.add_transition(source, destination, on_error, conditions)`
(src/fsm_transition.py lines 33-54): raise `AssertionError` when the source
key is already registered, otherwise store a new entry under it. -/
def FSMTag.add_transition {M : Type} (t : FSMTag M) (source : String)
    (destination : Option Dest) (on_error : Option String)
    (conditions : Option (List (M → Bool))) : Except PyErr (FSMTag M) :=
  if dictContains t.transitions source then
    .error .assertionError
  else
    .ok ⟨t.field, t.transitions ++ [(source, ⟨source, destination, on_error, conditions⟩)]⟩

/-- Embeds `FSMTag.has_transition(state)` (src/fsm_transition.py lines
56-69). The third branch evaluates `self.transitions['+'].target`, an
attribute read on the stored dict; a dict has no attribute `target`, so
reaching that branch raises `AttributeError` before the comparison with
`state` can happen. -/
def FSMTag.has_transition {M : Type} (t : FSMTag M) (state : String) :
    Except PyErr Bool :=
  if dictContains t.transitions state then .ok true
  else if dictContains t.transitions "*" then .ok true
  else if dictContains t.transitions "+" then .error .attributeError
  else .ok false

/-- Embeds `FSMTag.conditions_met(method_owner, state)` (src/fsm_transition.py
lines 71-86): false when no transition resolves, true when the resolved
entry's conditions are `None`, otherwise the conjunction of all conditions
applied to the method owner. -/
def FSMTag.conditions_met {M : Type} (t : FSMTag M) (method_owner : M)
    (state : String) : Bool :=
  match t.get_transition state with
  | none => false
  | some tr =>
    match tr.conditions with
    | none => true
    | some cs => cs.all (fun condition => condition method_owner)

/-- Embeds `FSMTag.next_state(current_state)` (src/fsm_transition.py lines
88-94): raise `TransitionNotAllowed` when no transition resolves, otherwise
return the resolved entry's destination. -/
def FSMTag.next_state {M : Type} (t : FSMTag M) (current_state : String) :
    Except PyErr (Option Dest) :=
  match t.get_transition current_state with
  | none => .error .transitionNotAllowed
  | some tr => .ok tr.destination

/-- Embeds `FSMTag.exception_state(current_state)` (src/fsm_transition.py
lines 96-102): raise `TransitionNotAllowed` when no transition resolves,
otherwise return the resolved entry's `on_error` state. -/
def FSMTag.exception_state {M : Type} (t : FSMTag M) (current_state : String) :
    Except PyErr (Option String) :=
  match t.get_transition current_state with
  | none => .error .transitionNotAllowed
  | some tr => .ok tr.on_error

/-- Observable payload of one `transition.send(**signal_kwargs)` call in
`FSMField.change_state` (src/fsm_field.py lines 134-144): the method name,
the source state, the `destination` entry (initially `next_state`, possibly
overwritten before sending) and the `exception` entry. The `sender`,
`instance`, `field`, `method_args` and `method_kwargs` entries never affect
control flow and are omitted. -/
structure SignalKwargs where
  name : String
  source : String
  destination : Option Dest
  exception : Option PyErr
deriving DecidableEq

deriving instance DecidableEq for Except

/-- Observable effects of one `FSMField.change_state` call: the value
returned to the caller or the exception raised, the arguments of the
`FSMField.set_state` calls made (in order), and the signals sent (in order). -/
structure ExecResult where
  result : Except PyErr String
  writes : List String
  signals : List SignalKwargs
deriving DecidableEq

/-- Outcome of invoking the wrapped behavior `method(method_owner, *args,
**kwargs)`: a returned value (modeled as the string that state resolution
compares against) or a raised exception. -/
inductive MethodOutcome where
  | ok (result : String)
  | raises (exc : PyErr)

/-- Embeds the `except Exception` branch of `FSMField.change_state`
(src/fsm_field.py lines 153-160): resolve `exception_state(current_state)`;
when it is truthy (Python `if exception_state:` is false both for `None` and
for the empty string) commit it via `set_state`, overwrite the signal's
`destination` and `exception` entries, send the signal, and re-raise;
otherwise just re-raise. An exception raised by `exception_state` itself
propagates instead. -/
def FSMField.on_exception {M : Type} (tag : FSMTag M) (current_state : String)
    (sig : SignalKwargs) (exc : PyErr) : ExecResult :=
  match tag.exception_state current_state with
  | .error e => ⟨.error e, [], []⟩
  | .ok none => ⟨.error exc, [], []⟩
  | .ok (some s) =>
    if s = "" then ⟨.error exc, [], []⟩
    else ⟨.error exc, [s], [{ sig with destination := some (.state s), exception := some exc }]⟩

/-- Embeds `FSMField.change_state(method_owner, method, *args, **kwargs)`
(src/fsm_field.py lines 101-164). `current_state` is the value read by
`self.get_state(method_owner)`; `method` is the outcome of running the
wrapped behavior, consulted only if control reaches the `try` block. On
success inside the `try` block: a non-`None` `next_state` is committed after
resolving a `ONE_OF` destination against the returned value (that resolution
raising is caught by the same `except Exception` branch as a behavior
error), then the signal is sent and the result returned. -/
def FSMField.change_state {M : Type} (tag : FSMTag M) (method_owner : M)
    (method_name : String) (current_state : String) (method : MethodOutcome) :
    ExecResult :=
  match tag.has_transition current_state with
  | .error e => ⟨.error e, [], []⟩
  | .ok false => ⟨.error .transitionNotAllowed, [], []⟩
  | .ok true =>
    if tag.conditions_met method_owner current_state then
      match tag.next_state current_state with
      | .error e => ⟨.error e, [], []⟩
      | .ok next_state =>
        let sig : SignalKwargs :=
          { name := method_name, source := current_state,
            destination := next_state, exception := none }
        match method with
        | .raises exc => FSMField.on_exception tag current_state sig exc
        | .ok result =>
          match next_state with
          | none => ⟨.ok result, [], [sig]⟩
          | some (.state s) => ⟨.ok result, [s], [sig]⟩
          | some (.oneOf o) =>
            match o.get_state result with
            | .error e => FSMField.on_exception tag current_state sig e
            | .ok s => ⟨.ok result, [s], [{ sig with destination := some (.state s) }]⟩
    else ⟨.error .transitionNotAllowed, [], []⟩

/-- Source specifier accepted by the `transition` decorator: a single string,
or a sequence (list or tuple) of strings. -/
inductive Src where
  | single (s : String)
  | seq (l : List String)

/-- The registration loop of `transition.internal_method`
(src/fsm_transition.py lines 142-144): one `add_transition` call per element
of a sequence source, stopping at the first raised exception. -/
def FSMTag.add_transitions {M : Type} (t : FSMTag M) (states : List String)
    (dest : Option Dest) (on_error : Option String)
    (conditions : Option (List (M → Bool))) : Except PyErr (FSMTag M) :=
  match states with
  | [] => .ok t
  | s :: rest =>
    match t.add_transition s dest on_error conditions with
    | .error e => .error e
    | .ok t' => t'.add_transitions rest dest on_error conditions

/-- Embeds `transition.internal_method(method)` (src/fsm_transition.py lines
138-152): build a fresh `FSMTag` for the field name and register one
transition per element of a sequence source, or a single transition for a
single source. The wrapper `_change_state` that the decorator returns merely
delegates to `FSMField.change_state`, which is embedded separately. -/
def internal_method {M : Type} (fieldName : String) (src : Src)
    (dest : Option Dest) (on_error : Option String)
    (conditions : Option (List (M → Bool))) : Except PyErr (FSMTag M) :=
  match src with
  | .seq states => FSMTag.add_transitions ⟨fieldName, []⟩ states dest on_error conditions
  | .single s => FSMTag.add_transition ⟨fieldName, []⟩ s dest on_error conditions

/-! Concrete transition tables used by counterexamples and witnesses. All use
the trivial acting object `Unit`. -/

/-- Table registering only the any-but-self source `+`, with destination
state `a`. -/
def tagPlusA : FSMTag Unit := ⟨"state", [("+", ⟨"+", some (.state "a"), none, some []⟩)]⟩

/-- Table with one source `s`, a `ONE_OF` destination allowing only `a`, and
error-fallback state `failed`. -/
def c1tag : FSMTag Unit :=
  ⟨"state", [("s", ⟨"s", some (.oneOf ⟨some [Arg.str "a"]⟩), some "failed", some []⟩)]⟩

/-- Same table as `c1tag` but with no error-fallback state. -/
def c1tagNoFb : FSMTag Unit :=
  ⟨"state", [("s", ⟨"s", some (.oneOf ⟨some [Arg.str "a"]⟩), none, some []⟩)]⟩

/-- Table whose only entry carries the empty string as its `on_error` state. -/
def c3tagEmpty : FSMTag Unit := ⟨"state", [("s", ⟨"s", some (.state "t"), some "", some []⟩)]⟩

/-- Table whose only entry carries the state `failed` as its `on_error`
state. -/
def c3tagFb : FSMTag Unit := ⟨"state", [("s", ⟨"s", some (.state "t"), some "failed", some []⟩)]⟩

/-- Table with one ordinary entry `draft` to `published` and no fallback. -/
def c4tag : FSMTag Unit := ⟨"state", [("draft", ⟨"draft", some (.state "published"), none, some []⟩)]⟩

/-- Table with one entry whose destination is absent (`None`), modelling a
validate-only transition. -/
def c9tag : FSMTag Unit := ⟨"state", [("s", ⟨"s", none, none, some []⟩)]⟩

/-- C1 counterexample: with a `ONE_OF` destination allowing only `a`, an
error-fallback state `failed` configured, and a behavior returning the
non-member `z`, the execution does raise the invalid-result error
(`TransitionNotAllowed`), but — contrary to the claim — the error-fallback
state is committed and a notification is sent: the `ONE_OF` resolution
happens inside the `try` block, so its failure is caught by the same
`except Exception` branch as a behavior error. -/
theorem c1_counterexample :
    (FSMField.change_state c1tag () "go" "s" (.ok "z")).result = .error .transitionNotAllowed
    ∧ (FSMField.change_state c1tag () "go" "s" (.ok "z")).writes = ["failed"]
    ∧ (FSMField.change_state c1tag () "go" "s" (.ok "z")).signals =
        [⟨"go", "s", some (.state "failed"), some .transitionNotAllowed⟩] :=
  ⟨rfl, rfl, rfl⟩

/-- C1 (amended): when a `ONE_OF`-governed behavior returns a value outside
the declared destination set, the invalid-result error is raised to the
caller in every case, but it is treated exactly like a behavior error: when
no (truthy) error-fallback state is configured the stored state is unchanged
and no notification occurs, while a configured non-empty error-fallback state
is committed and one failure notification carrying the invalid-result error
is sent. -/
theorem c1_one_of_invalid_result_uses_fallback {M : Type} (tag : FSMTag M)
    (owner : M) (mn cs r : String) (tr : Transition M) (o : ONE_OF) (e : PyErr)
    (h1 : tag.has_transition cs = .ok true)
    (h2 : tag.conditions_met owner cs = true)
    (h3 : tag.get_transition cs = some tr)
    (h4 : tr.destination = some (.oneOf o))
    (h5 : o.get_state r = .error e) :
    (tr.on_error = none →
      FSMField.change_state tag owner mn cs (.ok r) = ⟨.error e, [], []⟩)
    ∧ (∀ fb, tr.on_error = some fb → fb ≠ "" →
      FSMField.change_state tag owner mn cs (.ok r) =
        ⟨.error e, [fb], [⟨mn, cs, some (.state fb), some e⟩]⟩) := by
  constructor
  · intro h6
    simp [FSMField.change_state, FSMField.on_exception, FSMTag.next_state,
          FSMTag.exception_state, h1, h2, h3, h4, h5, h6]
  · intro fb h6 h7
    simp [FSMField.change_state, FSMField.on_exception, FSMTag.next_state,
          FSMTag.exception_state, h1, h2, h3, h4, h5, h6, h7]

/-- C1 witness: both branches of the amended statement at concrete tables. -/
theorem c1_witness :
    FSMField.change_state c1tagNoFb () "go" "s" (.ok "z") =
      ⟨.error .transitionNotAllowed, [], []⟩
    ∧ FSMField.change_state c1tag () "go" "s" (.ok "z") =
      ⟨.error .transitionNotAllowed, ["failed"],
        [⟨"go", "s", some (.state "failed"), some .transitionNotAllowed⟩]⟩ := by
  constructor
  · exact (c1_one_of_invalid_result_uses_fallback c1tagNoFb () "go" "s" "z"
      ⟨"s", some (.oneOf ⟨some [Arg.str "a"]⟩), none, some []⟩
      ⟨some [Arg.str "a"]⟩ .transitionNotAllowed rfl rfl rfl rfl rfl).1 rfl
  · exact (c1_one_of_invalid_result_uses_fallback c1tag () "go" "s" "z"
      ⟨"s", some (.oneOf ⟨some [Arg.str "a"]⟩), some "failed", some []⟩
      ⟨some [Arg.str "a"]⟩ .transitionNotAllowed rfl rfl rfl rfl rfl).2 "failed" rfl
      (by decide)

/-- C2: evaluating `has_transition` on a table whose only entry is the
any-but-self source `+` raises `AttributeError` — both when the registered
destination equals the queried state and when it differs — because the code
reads the attribute `target` of the stored dict, which does not exist. The
claim expects `false` respectively `true` instead. -/
theorem c2_plus_branch_raises :
    tagPlusA.has_transition "a" = .error .attributeError
    ∧ tagPlusA.has_transition "b" = .error .attributeError :=
  ⟨rfl, rfl⟩

/-- C5: on a table whose only entry is the any-but-self source `+` with
destination `a` and current state `a` (no registered source matches under the
self-loop-exclusion rule), `change_state` raises `AttributeError` instead of
the claimed `TransitionNotAllowed`; no write and no notification occur. -/
theorem c5_plus_branch_raises_in_change_state :
    FSMField.change_state tagPlusA () "publish" "a" (.ok "x") =
      ⟨.error .attributeError, [], []⟩ :=
  rfl

/-- C3 counterexample: the empty string is a non-absent error-fallback state,
yet when the behavior raises, the code commits nothing and sends no
notification — `if exception_state:` is a Python truthiness test, false for
the empty string — while the claim requires a commit of the fallback state
and one failure notification for every non-absent fallback. The original
error still propagates. -/
theorem c3_counterexample :
    (FSMField.change_state c3tagEmpty () "go" "s" (.raises (.userExc 0))).writes = []
    ∧ (FSMField.change_state c3tagEmpty () "go" "s" (.raises (.userExc 0))).signals = []
    ∧ (FSMField.change_state c3tagEmpty () "go" "s" (.raises (.userExc 0))).result =
        .error (.userExc 0) :=
  ⟨rfl, rfl, rfl⟩

/-- C3 (amended): when the behavior raises and the matched entry carries a
non-absent, non-empty error-fallback state, that state is committed by
exactly one write, exactly one failure notification carrying the causing
error is sent, and the original error is re-raised to the caller. -/
theorem c3_fallback_commits_and_notifies {M : Type} (tag : FSMTag M)
    (owner : M) (mn cs fb : String) (exc : PyErr) (tr : Transition M)
    (h1 : tag.has_transition cs = .ok true)
    (h2 : tag.conditions_met owner cs = true)
    (h3 : tag.get_transition cs = some tr)
    (h4 : tr.on_error = some fb)
    (h5 : fb ≠ "") :
    FSMField.change_state tag owner mn cs (.raises exc) =
      ⟨.error exc, [fb], [⟨mn, cs, some (.state fb), some exc⟩]⟩ := by
  simp [FSMField.change_state, FSMField.on_exception, FSMTag.next_state,
        FSMTag.exception_state, h1, h2, h3, h4, h5]

/-- C3 witness: the amended statement at a concrete table with fallback
state `failed` and a behavior raising an arbitrary error. -/
theorem c3_witness :
    FSMField.change_state c3tagFb () "go" "s" (.raises (.userExc 3)) =
      ⟨.error (.userExc 3), ["failed"],
        [⟨"go", "s", some (.state "failed"), some (.userExc 3)⟩]⟩ :=
  c3_fallback_commits_and_notifies c3tagFb () "go" "s" "failed" (.userExc 3)
    ⟨"s", some (.state "t"), some "failed", some []⟩ rfl rfl rfl rfl (by decide)

/-- C4: when the behavior raises and the matched entry has no error-fallback
state (`on_error` is `None`), the stored state is not written, no
notification is sent, and the original error propagates to the caller. -/
theorem c4_no_fallback_keeps_state {M : Type} (tag : FSMTag M) (owner : M)
    (mn cs : String) (exc : PyErr) (tr : Transition M)
    (h1 : tag.has_transition cs = .ok true)
    (h2 : tag.conditions_met owner cs = true)
    (h3 : tag.get_transition cs = some tr)
    (h4 : tr.on_error = none) :
    FSMField.change_state tag owner mn cs (.raises exc) = ⟨.error exc, [], []⟩ := by
  simp [FSMField.change_state, FSMField.on_exception, FSMTag.next_state,
        FSMTag.exception_state, h1, h2, h3, h4]

/-- C4 witness: a concrete table with no fallback and a raising behavior. -/
theorem c4_witness :
    FSMField.change_state c4tag () "pub" "draft" (.raises (.userExc 7)) =
      ⟨.error (.userExc 7), [], []⟩ :=
  c4_no_fallback_keeps_state c4tag () "pub" "draft" (.userExc 7)
    ⟨"draft", some (.state "published"), none, some []⟩ rfl rfl rfl rfl

/-- C9: a permitted execution whose matched entry has an absent destination
and whose behavior returns normally performs no write, still sends exactly
one success notification (destination absent, no exception attached), and
returns the behavior's return value to the caller. -/
theorem c9_absent_destination_frame {M : Type} (tag : FSMTag M) (owner : M)
    (mn cs r : String) (tr : Transition M)
    (h1 : tag.has_transition cs = .ok true)
    (h2 : tag.conditions_met owner cs = true)
    (h3 : tag.get_transition cs = some tr)
    (h4 : tr.destination = none) :
    FSMField.change_state tag owner mn cs (.ok r) = ⟨.ok r, [], [⟨mn, cs, none, none⟩]⟩ := by
  simp [FSMField.change_state, FSMTag.next_state, h1, h2, h3, h4]

/-- C9 witness: a concrete validate-only table with a returning behavior. -/
theorem c9_witness :
    FSMField.change_state c9tag () "go" "s" (.ok "r") =
      ⟨.ok "r", [], [⟨"go", "s", none, none⟩]⟩ :=
  c9_absent_destination_frame c9tag () "go" "s" "r" ⟨"s", none, none, some []⟩
    rfl rfl rfl rfl

/-- C6: `get_transition` resolution order — the entry registered under the
exact current state wins when it exists; otherwise the `*` entry when it
exists; otherwise the `+` entry when it exists; otherwise the result is
`none` and no exception is raised. -/
theorem c6_resolution_order {M : Type} (t : FSMTag M) (s : String) :
    (∀ tr, dictGet t.transitions s = some tr → t.get_transition s = some tr)
    ∧ (dictGet t.transitions s = none →
        ∀ tr, dictGet t.transitions "*" = some tr → t.get_transition s = some tr)
    ∧ (dictGet t.transitions s = none → dictGet t.transitions "*" = none →
        t.get_transition s = dictGet t.transitions "+")
    ∧ (dictGet t.transitions s = none → dictGet t.transitions "*" = none →
        dictGet t.transitions "+" = none → t.get_transition s = none) := by
  refine ⟨?_, ?_, ?_, ?_⟩
  · intro tr h
    simp [FSMTag.get_transition, h]
  · intro h tr h2
    simp [FSMTag.get_transition, h, h2]
  · intro h h2
    simp [FSMTag.get_transition, h, h2]
  · intro h h2 h3
    simp [FSMTag.get_transition, h, h2, h3]

/-- Entry under the exact source `a`. -/
def trExact : Transition Unit := ⟨"a", some (.state "da"), none, none⟩

/-- Entry under the wildcard source. -/
def trStar : Transition Unit := ⟨"*", some (.state "ds"), none, none⟩

/-- Entry under the any-but-self source. -/
def trPlus : Transition Unit := ⟨"+", some (.state "dp"), none, none⟩

/-- Table with an exact entry for `a`, a `*` entry and a `+` entry. -/
def t6exact : FSMTag Unit := ⟨"state", [("a", trExact), ("*", trStar), ("+", trPlus)]⟩

/-- Table with no exact entry for `a` but with `*` and `+` entries. -/
def t6star : FSMTag Unit := ⟨"state", [("x", trExact), ("*", trStar), ("+", trPlus)]⟩

/-- Table with no exact entry for `a` and no `*` entry, but a `+` entry. -/
def t6plus : FSMTag Unit := ⟨"state", [("x", trExact), ("+", trPlus)]⟩

/-- Table with no entry matching `a` at all. -/
def t6empty : FSMTag Unit := ⟨"state", [("x", trExact)]⟩

/-- C6 witness: the four branches of the resolution order at concrete
tables. -/
theorem c6_witness :
    t6exact.get_transition "a" = some trExact
    ∧ t6star.get_transition "a" = some trStar
    ∧ t6plus.get_transition "a" = dictGet t6plus.transitions "+"
    ∧ t6empty.get_transition "a" = none :=
  ⟨(c6_resolution_order t6exact "a").1 trExact rfl,
   (c6_resolution_order t6star "a").2.1 rfl trStar rfl,
   (c6_resolution_order t6plus "a").2.2.1 rfl rfl,
   (c6_resolution_order t6empty "a").2.2.2 rfl rfl rfl⟩

/-- Appending a fresh entry to the transitions dict: containment afterwards
holds for the old keys and for the new key. -/
theorem dictContains_append {M : Type} (d : List (String × Transition M))
    (k k' : String) (v : Transition M) :
    dictContains (d ++ [(k, v)]) k' = (dictContains d k' || decide (k = k')) := by
  induction d with
  | nil => simp [dictContains]
  | cons p rest ih =>
    obtain ⟨k2, v2⟩ := p
    simp [dictContains, ih, Bool.or_assoc]

/-- The registration loop of the decorator succeeds exactly when the source
list has no duplicate and no element is already a key of the table. -/
theorem add_transitions_isOk {M : Type} (d : Option Dest) (oe : Option String)
    (c : Option (List (M → Bool))) :
    ∀ (xs : List String) (t : FSMTag M),
      (FSMTag.add_transitions t xs d oe c).isOk = true ↔
        xs.Nodup ∧ ∀ x ∈ xs, dictContains t.transitions x = false := by
  intro xs
  induction xs with
  | nil =>
    intro t
    simp [FSMTag.add_transitions, Except.isOk, Except.toBool]
  | cons x rest ih =>
    intro t
    cases h : dictContains t.transitions x with
    | true =>
      simp only [FSMTag.add_transitions, FSMTag.add_transition, h, if_true]
      constructor
      · intro hfalse
        simp [Except.isOk, Except.toBool] at hfalse
      · rintro ⟨-, hall⟩
        have := hall x (List.mem_cons_self x rest)
        rw [h] at this
        cases this
    | false =>
      simp only [FSMTag.add_transitions, FSMTag.add_transition, h, if_false,
        Bool.false_eq_true]
      rw [ih]
      constructor
      · rintro ⟨hnd, hall⟩
        refine ⟨List.nodup_cons.mpr ⟨?_, hnd⟩, ?_⟩
        · intro hx
          have := hall x hx
          rw [dictContains_append] at this
          simp at this
        · intro y hy
          rcases List.mem_cons.mp hy with hy | hy
          · rw [hy]; exact h
          · have := hall y hy
            rw [dictContains_append] at this
            simp at this
            exact this.1
      · rintro ⟨hnd, hall⟩
        obtain ⟨hx, hnd'⟩ := List.nodup_cons.mp hnd
        refine ⟨hnd', ?_⟩
        intro y hy
        rw [dictContains_append]
        have h1 := hall y (List.mem_cons_of_mem x hy)
        have h2 : x ≠ y := fun he => hx (he ▸ hy)
        simp [h1, h2]

/-- C7: registering a source that the table already holds raises
`AssertionError` (the code's concrete form of the invalid-configuration
error), and registering a sequence of sources through the decorator's
expansion succeeds exactly when the sources are pairwise distinct — a
duplicate inside the sequence also raises. -/
theorem c7_duplicate_source_detection (M : Type) (fieldName : String)
    (dest : Option Dest) (on_error : Option String)
    (conditions : Option (List (M → Bool))) :
    (∀ xs : List String,
      (internal_method fieldName (Src.seq xs) dest on_error conditions).isOk = true
        ↔ xs.Nodup)
    ∧ (∀ (t : FSMTag M) (s : String), dictContains t.transitions s = true →
        t.add_transition s dest on_error conditions = .error .assertionError) := by
  constructor
  · intro xs
    rw [show (internal_method fieldName (Src.seq xs) dest on_error conditions :
          Except PyErr (FSMTag M)) =
        FSMTag.add_transitions ⟨fieldName, []⟩ xs dest on_error conditions from rfl]
    rw [add_transitions_isOk]
    simp [dictContains]
  · intro t s h
    simp [FSMTag.add_transition, h]

/-- C7 witness: a distinct two-element source sequence registers without
error, and re-registering an already present source raises. -/
theorem c7_witness :
    (internal_method "state" (Src.seq ["draft", "review"]) none none none :
      Except PyErr (FSMTag Unit)).isOk = true
    ∧ FSMTag.add_transition
        (⟨"state", [("draft", ⟨"draft", none, none, none⟩)]⟩ : FSMTag Unit)
        "draft" none none none = .error .assertionError :=
  ⟨((c7_duplicate_source_detection Unit "state" none none none).1
      ["draft", "review"]).mpr (by decide),
   (c7_duplicate_source_detection Unit "state" none none none).2
      ⟨"state", [("draft", ⟨"draft", none, none, none⟩)]⟩ "draft" rfl⟩

/-- C8: constructing `ONE_OF` with zero entries raises `ValueError` (the
code's concrete form of the invalid-configuration error); a selector built
from one or more string state identifiers returns `v` from `get_state v`
exactly when `v` is one of the declared identifiers and raises
`TransitionNotAllowed` otherwise. -/
theorem c8_one_of_contract :
    ONE_OF.init [] = .error .valueError
    ∧ ∀ (s : String) (rest : List String) (o : ONE_OF),
        ONE_OF.init ((s :: rest).map Arg.str) = .ok o →
        ∀ v : String,
          (v ∈ s :: rest → o.get_state v = .ok v)
          ∧ (v ∉ s :: rest → o.get_state v = .error .transitionNotAllowed) := by
  refine ⟨rfl, ?_⟩
  intro s rest o h v
  have hinit : ONE_OF.init ((s :: rest).map Arg.str) =
      .ok (⟨some ((s :: rest).map Arg.str)⟩ : ONE_OF) := rfl
  rw [hinit] at h
  injection h with h2
  subst h2
  constructor
  · intro hv
    have hm : Arg.str v ∈ (s :: rest).map Arg.str := List.mem_map_of_mem Arg.str hv
    simp only [ONE_OF.get_state]
    rw [if_pos hm]
  · intro hv
    have hm : Arg.str v ∉ (s :: rest).map Arg.str := by
      intro hmem
      rcases List.mem_map.mp hmem with ⟨a, ha, he⟩
      injection he with he2
      exact hv (he2 ▸ ha)
    simp only [ONE_OF.get_state]
    rw [if_neg hm]

/-- C8 witness: the selector declared from `a` and `b` accepts `a` and
rejects `c`, and the zero-argument construction raises. -/
theorem c8_witness :
    (ONE_OF.mk (some [Arg.str "a", Arg.str "b"])).get_state "a" = .ok "a"
    ∧ (ONE_OF.mk (some [Arg.str "a", Arg.str "b"])).get_state "c" =
        .error .transitionNotAllowed
    ∧ ONE_OF.init [] = .error .valueError :=
  ⟨(c8_one_of_contract.2 "a" ["b"] ⟨some [Arg.str "a", Arg.str "b"]⟩ rfl "a").1
      (by decide),
   (c8_one_of_contract.2 "a" ["b"] ⟨some [Arg.str "a", Arg.str "b"]⟩ rfl "c").2
      (by decide),
   c8_one_of_contract.1⟩

/-- C10: constructing `ONE_OF` from a single non-empty argument that is
neither a string nor a list nor a tuple (here: a set of state names)
succeeds without recording any allowed-state set, and every later
`get_state` call on the resulting selector raises `AttributeError` — the
missing-attribute failure — never the declared not-a-member
`TransitionNotAllowed`. -/
theorem c10_set_argument_selector_unusable :
    ∀ (l : List String), l ≠ [] →
      ONE_OF.init [Arg.set l] = .ok ⟨none⟩
      ∧ ∀ (o : ONE_OF) (v : String), ONE_OF.init [Arg.set l] = .ok o →
          o.get_state v = .error .attributeError
          ∧ o.get_state v ≠ .error .transitionNotAllowed := by
  intro l _hl
  refine ⟨rfl, ?_⟩
  intro o v h
  have h' : (Except.ok (⟨none⟩ : ONE_OF) : Except PyErr ONE_OF) = .ok o := h
  injection h' with h2
  subst h2
  exact ⟨rfl, by simp [ONE_OF.get_state]⟩

/-- C10 witness: the selector constructed from the set of `a` and `b`
records no allowed states and its `get_state` raises `AttributeError` even
on a would-be member. -/
theorem c10_witness :
    ONE_OF.init [Arg.set ["a", "b"]] = .ok ⟨none⟩
    ∧ (ONE_OF.mk none).get_state "a" = .error .attributeError :=
  ⟨(c10_set_argument_selector_unusable ["a", "b"] (by decide)).1,
   ((c10_set_argument_selector_unusable ["a", "b"] (by decide)).2 ⟨none⟩ "a" rfl).1⟩
